import Mathlib

/-!
Verification of the n8n workflow toolkit scripts: shallow embedding of
src/scripts/webhook_utils.py, src/scripts/import_workflow.py,
src/scripts/activate_workflow.py and src/scripts/execute_workflow.py.

HTTP calls, file writes, timestamps and wall-clock durations are abstracted:
remote responses enter the model as explicit parameters (oracles), and the
requests a function issues are returned as an explicit list so that claims
about which requests are sent can be stated.  Dictionary fields that a
script reads with .get(key, default) are modelled as Option fields, a
missing key being none.
-/

namespace CCAutoN8n

/-- Decidable equality on Except, so that concrete runs of the fallible
functions can be checked by decide. -/
instance {ε α : Type} [DecidableEq ε] [DecidableEq α] : DecidableEq (Except ε α) :=
  fun x y =>
    match x, y with
    | .ok a, .ok b =>
      if h : a = b then .isTrue (by rw [h]) else .isFalse (by simp [h])
    | .error a, .error b =>
      if h : a = b then .isTrue (by rw [h]) else .isFalse (by simp [h])
    | .ok _, .error _ => .isFalse (by simp)
    | .error _, .ok _ => .isFalse (by simp)

/- ===================== Strings: case-insensitive substring test =========
The scripts test membership with the Python expression
  "webhook" in node.get("type", "").lower()
We model the substring test on the character lists of the strings. -/

/-- needle is an initial segment of the character list. -/
def leadsWith : List Char → List Char → Bool
  | [], _ => true
  | _ :: _, [] => false
  | a :: as, b :: bs => a == b && leadsWith as bs

/-- needle occurs contiguously somewhere in the character list. -/
def hasSub (needle : List Char) : List Char → Bool
  | [] => needle.isEmpty
  | l@(_ :: rest) => leadsWith needle l || hasSub needle rest

/-- The Python test (needle in hay) on strings. -/
def strContains (hay needle : String) : Bool :=
  hasSub needle.data hay.data

/-- Python str.lower, on the character list (the node type names the
scripts compare are ASCII). -/
def strLower (s : String) : String :=
  ⟨s.data.map Char.toLower⟩

/- ===================== webhook_utils.py : data model ==================== -/

/-- The inner parameters dictionary of a workflow node, restricted to the
keys read by extract_webhook_urls (webhook_utils.py lines 47-50).  none
models an absent key. -/
structure NodeParameters where
  path : Option String
  method : Option String
  responseMode : Option String
deriving DecidableEq

/-- A workflow node as read by extract_webhook_urls: name, type and
webhookId are read with .get (default used when absent), while parameters
is indexed directly (node[ ... ]), so its absence is a KeyError; we model
that by an Option at the structure level. -/
structure Node where
  name : Option String
  type : Option String
  webhookId : Option String
  parameters : Option NodeParameters
deriving DecidableEq

/-- A workflow definition: the nodes list (workflow_json.get("nodes", []),
an absent key behaving as the empty list). -/
structure Workflow where
  nodes : List Node
deriving DecidableEq

/-- The entry built for each webhook node (webhook_utils.py lines 45-61).
production_url and test_url stay none when neither path nor webhookId is a
nonempty string. -/
structure WebhookInfo where
  node_name : String
  path : String
  method : String
  webhook_id : String
  response_mode : String
  production_url : Option String
  test_url : Option String
deriving DecidableEq

/-- The one Python exception extract_webhook_urls can raise at its public
interface: indexing a node dictionary at a missing key. -/
inductive PyError where
  | keyError (key : String)
deriving DecidableEq

/-- The guard of webhook_utils.py line 44:
  if "webhook" in node.get("type", "").lower(). -/
def isWebhookNode (node : Node) : Bool :=
  strContains (strLower (node.type.getD "")) "webhook"

/-- The body of the loop of webhook_utils.py lines 45-59 for one webhook
node whose parameters dictionary is present: read fields with defaults,
then build the URL pair, preferring a nonempty path over webhookId. -/
def mkWebhookInfo (base_url : String) (node : Node) (params : NodeParameters) :
    WebhookInfo :=
  let info : WebhookInfo :=
    { node_name := node.name.getD "Unnamed"
      path := params.path.getD ""
      method := params.method.getD "GET"
      webhook_id := node.webhookId.getD ""
      response_mode := params.responseMode.getD "onReceived"
      production_url := none
      test_url := none }
  if info.path ≠ "" then
    { info with
        production_url := some (base_url ++ "/webhook/" ++ info.path)
        test_url := some (base_url ++ "/webhook-test/" ++ info.path) }
  else if info.webhook_id ≠ "" then
    { info with
        production_url := some (base_url ++ "/webhook/" ++ info.webhook_id)
        test_url := some (base_url ++ "/webhook-test/" ++ info.webhook_id) }
  else
    info

/-- The loop of extract_webhook_urls over the nodes list (webhook_utils.py
lines 43-61).  A webhook node whose parameters key is absent raises
KeyError, aborting the whole extraction. -/
def extract_webhook_urls_nodes (base_url : String) :
    List Node → Except PyError (List WebhookInfo)
  | [] => .ok []
  | node :: rest =>
    if isWebhookNode node then
      match node.parameters with
      | none => .error (.keyError "parameters")
      | some params =>
        match extract_webhook_urls_nodes base_url rest with
        | .ok tail => .ok (mkWebhookInfo base_url node params :: tail)
        | .error e => .error e
    else
      extract_webhook_urls_nodes base_url rest

/-- extract_webhook_urls (webhook_utils.py lines 36-63; the copy in
import_workflow.py lines 36-60 differs only in where base_url comes
from). -/
def extract_webhook_urls (base_url : String) (wf : Workflow) :
    Except PyError (List WebhookInfo) :=
  extract_webhook_urls_nodes base_url wf.nodes

/- ===================== activate_workflow.py ============================= -/

/-- The engine-side view of one workflow that the activation code reads:
response.json().get("name", "Unknown") and .get("active", False), already
defaulted. -/
structure WorkflowData where
  name : String
  active : Bool
deriving DecidableEq

/-- The HTTP requests _set_workflow_active_state can issue
(activate_workflow.py lines 55-93). -/
inductive N8nRequest where
  | getWorkflow (id : String)
  | postActivate (id : String)
  | postDeactivate (id : String)
deriving DecidableEq

/-- Whether a request mutates engine state (the POSTs to the activate and
deactivate endpoints). -/
def N8nRequest.isMutating : N8nRequest → Bool
  | .getWorkflow _ => false
  | .postActivate _ => true
  | .postDeactivate _ => true

/-- The result dictionary returned by _set_workflow_active_state
(activate_workflow.py lines 70-75 and 104-109). -/
structure ActivationResult where
  id : String
  name : String
  active : Bool
  changed : Bool
deriving DecidableEq

/-- The failure of the post-action verification (activate_workflow.py line
111): the exception message carries the observed state. -/
inductive ActivationError where
  | mismatch (observed : Bool)
deriving DecidableEq

/-- _set_workflow_active_state (activate_workflow.py lines 45-111), with the
two GET responses passed in as fetch1 (the state check) and fetch2 (the
verification re-fetch; unused when the first branch returns early).  The
second component lists the requests issued, in order. -/
def set_workflow_active_state (workflow_id : String) (active : Bool)
    (fetch1 fetch2 : WorkflowData) :
    Except ActivationError ActivationResult × List N8nRequest :=
  let current_state := fetch1.active
  let workflow_name := fetch1.name
  if current_state == active then
    (.ok { id := workflow_id, name := workflow_name,
           active := current_state, changed := false },
     [.getWorkflow workflow_id])
  else
    let action : N8nRequest :=
      if active then .postActivate workflow_id else .postDeactivate workflow_id
    let new_state := fetch2.active
    if new_state == active then
      (.ok { id := workflow_id, name := workflow_name,
             active := new_state, changed := true },
       [.getWorkflow workflow_id, action, .getWorkflow workflow_id])
    else
      (.error (.mismatch new_state),
       [.getWorkflow workflow_id, action, .getWorkflow workflow_id])

/-- A well-behaved engine: GET leaves the workflow unchanged, the activate
and deactivate actions set the flag accordingly. -/
def engineStep (w : WorkflowData) : N8nRequest → WorkflowData
  | .getWorkflow _ => w
  | .postActivate _ => { w with active := true }
  | .postDeactivate _ => { w with active := false }

/-- One call of set_workflow_active_state against the well-behaved engine in
state w: the first fetch sees w, and the verification fetch sees the state
after the action request (when one is issued).  Returns the call result with
its request list, and the engine state afterwards. -/
def run_set_active (workflow_id : String) (active : Bool) (w : WorkflowData) :
    (Except ActivationError ActivationResult × List N8nRequest) × WorkflowData :=
  if w.active == active then
    (set_workflow_active_state workflow_id active w w, w)
  else
    let action : N8nRequest :=
      if active then .postActivate workflow_id else .postDeactivate workflow_id
    let w2 := engineStep w action
    (set_workflow_active_state workflow_id active w w2, w2)

/-- One entry of the results list of batch_activate: either the dictionary
returned by activate_workflow and deactivate_workflow, or the
error record built in the except branch (activate_workflow.py lines
203-208). -/
inductive BatchRecord where
  | activation (r : ActivationResult)
  | failure (id : String) (error : String)
deriving DecidableEq

/-- batch_activate (activate_workflow.py lines 190-220), with the outcome of
the per-identifier call passed in as an oracle act: the loop appends one
record per identifier and an exception is caught, recorded and does not
stop the loop. -/
def batch_activate (act : String → Except String ActivationResult) :
    List String → List BatchRecord
  | [] => []
  | workflow_id :: rest =>
    (match act workflow_id with
     | .ok r => BatchRecord.activation r
     | .error e => BatchRecord.failure workflow_id e) :: batch_activate act rest

/-- The failed count of the batch summary (activate_workflow.py line 213):
the records holding an error key. -/
def batch_failed_count (results : List BatchRecord) : Nat :=
  results.countP fun r => match r with
    | .failure _ _ => true
    | .activation _ => false

/-- The successfully-changed count of the batch summary (line 211). -/
def batch_changed_count (results : List BatchRecord) : Nat :=
  results.countP fun r => match r with
    | .activation a => a.changed
    | .failure _ _ => false

/-- The already-in-target-state count of the batch summary (line 212). -/
def batch_already_count (results : List BatchRecord) : Nat :=
  results.countP fun r => match r with
    | .activation a => !a.changed
    | .failure _ _ => false

/- ===================== execute_workflow.py : status polling ============ -/

/-- What one poll of the execution-status endpoint yields
(execute_workflow.py lines 479-500): either the request raises, or a JSON
payload from which the loop reads finished (truthiness of
execution.get("finished", False)), whether stoppedAt is not None, and
whether an error key is present. -/
inductive PollResponse where
  | exn
  | payload (finished : Bool) (stoppedAt : Bool) (hasErrorKey : Bool)
deriving DecidableEq

/-- The status strings poll_execution_status can return. -/
inductive PollStatus where
  | success
  | error
  | timeout
  | unknown
deriving DecidableEq

/-- A poll response that neither raises nor satisfies the terminal test of
execute_workflow.py line 491 (finished, or stoppedAt together with an error
key). -/
def isNonTerminal : PollResponse → Bool
  | .exn => false
  | .payload fin stop err => !(fin || (stop && err))

/-- A poll response satisfying the has_error test of line 486: stoppedAt is
set and an error key is present. -/
def isErrorTerminal : PollResponse → Bool
  | .exn => false
  | .payload _ stop err => stop && err

/-- The loop of poll_execution_status (execute_workflow.py lines 479-503)
from iteration i with the given number of iterations remaining, over an
endpoint giving the response of each poll.  Returns the final status and
the number of polls issued; the one-second sleep between polls is real
time and is not modelled. -/
def pollFrom (endpoint : Nat → PollResponse) : Nat → Nat → PollStatus × Nat
  | _, 0 => (.timeout, 0)
  | i, n + 1 =>
    match endpoint i with
    | .exn => (.unknown, 1)
    | .payload fin stop err =>
      if fin || (stop && err) then
        ((if stop && err then .error else .success), 1)
      else
        let r := pollFrom endpoint (i + 1) n
        (r.1, r.2 + 1)

/-- poll_execution_status: max_polls = 60 (execute_workflow.py line 476). -/
def poll_execution_status (endpoint : Nat → PollResponse) : PollStatus × Nat :=
  pollFrom endpoint 0 60

/- ===================== execute_workflow.py : orchestration ============= -/

/-- The normalized execution result, reduced to the status field the claims
are about (the scripts also record execution identifier, duration and
payload data, which are wall-clock and transport values outside the
model). -/
structure ExecResult where
  status : String
deriving DecidableEq

/-- execute_via_api (execute_workflow.py lines 218-299) after a successful
start POST: poll, and return a result dictionary only when the poll status
is success or error (lines 265-286); on timeout or unknown the function
falls through and returns None. -/
def execute_via_api (endpoint : Nat → PollResponse) : Option ExecResult :=
  let status := (poll_execution_status endpoint).1
  match status with
  | .success => some { status := "success" }
  | .error => some { status := "error" }
  | .timeout => none
  | .unknown => none

/-- The method argument of execute_workflow (execute_workflow.py line
108). -/
inductive Method where
  | auto
  | api
  | cli
  | webhook
deriving DecidableEq

/-- The observable steps of one execute_workflow call that the claims are
about: which execution methods were attempted, and whether the result was
persisted (save_execution_data) and the metadata updated
(update_execution_metadata). -/
inductive Event where
  | attemptWebhook
  | attemptApi
  | attemptCli
  | saveExecutionData
  | updateMetadata
deriving DecidableEq

/-- The exceptions execute_workflow can let escape: a re-raised webhook,
API or CLI error, or the AttributeError raised inside
update_execution_metadata when it is called with execution_result = None
(execute_workflow.py line 573, execution_result.get on None). -/
inductive ExecError where
  | webhookError (msg : String)
  | apiError (msg : String)
  | cliError (msg : String)
  | attributeErrorNone
deriving DecidableEq

/-- The tail of execute_workflow (lines 209-216): save the result if it is
truthy, then call update_execution_metadata unconditionally; with
execution_result = None that call raises an AttributeError before writing
anything. -/
def record_result (result : Option ExecResult) (evs : List Event) :
    Except ExecError (Option ExecResult) × List Event :=
  match result with
  | some r => (.ok (some r), evs ++ [.saveExecutionData, .updateMetadata])
  | none => (.error .attributeErrorNone, evs)

/-- The API and CLI phase of execute_workflow (lines 179-216): skipped
entirely when the method is webhook; otherwise the API attempt runs first,
and on an API exception the CLI fallback runs unless the method is exactly
api. -/
def api_cli_phase (method : Method)
    (apiAttempt : Except String (Option ExecResult))
    (cliAttempt : Except String ExecResult) (evs : List Event) :
    Except ExecError (Option ExecResult) × List Event :=
  if method = .webhook then
    record_result none evs
  else
    match apiAttempt with
    | .ok r => record_result r (evs ++ [.attemptApi])
    | .error e =>
      if method = .api then
        (.error (.apiError e), evs ++ [.attemptApi])
      else
        match cliAttempt with
        | .ok r => record_result (some r) (evs ++ [.attemptApi, .attemptCli])
        | .error ce => (.error (.cliError ce), evs ++ [.attemptApi, .attemptCli])

/-- execute_workflow (execute_workflow.py lines 108-216).  webhookUrl is
the URL resolved from workspace metadata (lines 137-154, none when the
metadata holds no usable webhook).  The three attempt arguments are the
outcomes of execute_via_webhook, execute_via_api and execute_via_cli as
oracles: ok carries the returned dictionary (for the API, None when the
poll ended in timeout or unknown), error the exception message.  The
pre-activation step (lines 113-121) is best effort and alters no observable
of the claims, so it is not modelled. -/
def execute_workflow (method : Method) (webhookUrl : Option String)
    (webhookAttempt : Except String ExecResult)
    (apiAttempt : Except String (Option ExecResult))
    (cliAttempt : Except String ExecResult) :
    Except ExecError (Option ExecResult) × List Event :=
  if method = .webhook ∨ method = .auto then
    match webhookUrl with
    | some _ =>
      match webhookAttempt with
      | .ok r => record_result (some r) [.attemptWebhook]
      | .error e =>
        if method = .webhook then
          (.error (.webhookError e), [.attemptWebhook])
        else
          api_cli_phase method apiAttempt cliAttempt [.attemptWebhook]
    | none => api_cli_phase method apiAttempt cliAttempt []
  else
    api_cli_phase method apiAttempt cliAttempt []

/- ===================== import_workflow.py ============================== -/

/-- The workflow definition document as import_workflow reads it: the four
fields removed by the cleaning step, as optional keys (import_workflow.py
line 77); every other field is irrelevant to the create-or-update branch
and is abstracted into rest. -/
structure WorkflowDocument where
  id : Option String
  active : Option Bool
  createdAt : Option String
  updatedAt : Option String
  rest : String
deriving DecidableEq

/-- The cleaning loop of import_workflow.py lines 77-79:
workflow_data.pop(field, None) for id, active, createdAt, updatedAt. -/
def clean_workflow_fields (w : WorkflowDocument) : WorkflowDocument :=
  { w with id := none, active := none, createdAt := none, updatedAt := none }

/-- The request the create-or-update branch issues (import_workflow.py
lines 92-109): PUT to the workflow when an id is found, POST to the
collection otherwise. -/
inductive ImportRequest where
  | put (id : String)
  | post
deriving DecidableEq

/-- The create-or-update decision of import_workflow (lines 74-109): clean
the fields, then read workflow_data.get("id") and branch.  Returns the
request issued. -/
def import_workflow (w : WorkflowDocument) : ImportRequest :=
  let workflow_data := clean_workflow_fields w
  match workflow_data.id with
  | some workflow_id => .put workflow_id
  | none => .post

/- ===================== polling loop lemmas ============================= -/

/-- When every remaining poll is non-terminal, the loop runs to exhaustion:
status timeout after exactly n polls. -/
theorem pollFrom_all_nonterminal (endpoint : Nat → PollResponse) (n i : Nat)
    (h : ∀ j, j < n → isNonTerminal (endpoint (i + j)) = true) :
    pollFrom endpoint i n = (.timeout, n) := by
  induction n generalizing i with
  | zero => rfl
  | succ n ih =>
    have h0 : isNonTerminal (endpoint i) = true := by
      have := h 0 (Nat.succ_pos n)
      simpa using this
    cases hep : endpoint i with
    | exn => rw [hep] at h0; simp [isNonTerminal] at h0
    | payload fin stop err =>
      rw [hep] at h0
      simp only [isNonTerminal, Bool.not_eq_true'] at h0
      have ih2 := ih (i + 1) (fun j hj => by
        have := h (j + 1) (Nat.succ_lt_succ hj)
        rwa [show i + (j + 1) = i + 1 + j by omega] at this)
      simp [pollFrom, hep, h0, ih2]

/-- When the first k polls are non-terminal and poll k raises, the loop
returns unknown after exactly k + 1 polls, aborting early. -/
theorem pollFrom_unknown_count (endpoint : Nat → PollResponse) (n i k : Nat)
    (hk : k < n) (hexn : endpoint (i + k) = .exn)
    (hpre : ∀ j, j < k → isNonTerminal (endpoint (i + j)) = true) :
    pollFrom endpoint i n = (.unknown, k + 1) := by
  induction n generalizing i k with
  | zero => omega
  | succ n ih =>
    cases k with
    | zero =>
      simp only [Nat.add_zero] at hexn
      simp [pollFrom, hexn]
    | succ k =>
      have h0 : isNonTerminal (endpoint i) = true := by
        have := hpre 0 (Nat.succ_pos k)
        simpa using this
      cases hep : endpoint i with
      | exn => rw [hep] at h0; simp [isNonTerminal] at h0
      | payload fin stop err =>
        rw [hep] at h0
        simp only [isNonTerminal, Bool.not_eq_true'] at h0
        have ih2 := ih (i + 1) k (by omega)
          (by rwa [show i + 1 + k = i + (k + 1) by omega])
          (fun j hj => by
            have := hpre (j + 1) (Nat.succ_lt_succ hj)
            rwa [show i + (j + 1) = i + 1 + j by omega] at this)
        simp [pollFrom, hep, h0, ih2]

/-- When the first k polls are non-terminal and poll k satisfies the error
test, the loop returns the error status. -/
theorem pollFrom_error_of (endpoint : Nat → PollResponse) (n i k : Nat)
    (hk : k < n) (herr : isErrorTerminal (endpoint (i + k)) = true)
    (hpre : ∀ j, j < k → isNonTerminal (endpoint (i + j)) = true) :
    (pollFrom endpoint i n).1 = .error := by
  induction n generalizing i k with
  | zero => omega
  | succ n ih =>
    cases k with
    | zero =>
      simp only [Nat.add_zero] at herr
      cases hep : endpoint i with
      | exn => rw [hep] at herr; simp [isErrorTerminal] at herr
      | payload fin stop err =>
        rw [hep] at herr
        simp only [isErrorTerminal] at herr
        simp [pollFrom, hep, herr]
    | succ k =>
      have h0 : isNonTerminal (endpoint i) = true := by
        have := hpre 0 (Nat.succ_pos k)
        simpa using this
      cases hep : endpoint i with
      | exn => rw [hep] at h0; simp [isNonTerminal] at h0
      | payload fin stop err =>
        rw [hep] at h0
        simp only [isNonTerminal, Bool.not_eq_true'] at h0
        have ih2 := ih (i + 1) k (by omega)
          (by rwa [show i + 1 + k = i + (k + 1) by omega])
          (fun j hj => by
            have := hpre (j + 1) (Nat.succ_lt_succ hj)
            rwa [show i + (j + 1) = i + 1 + j by omega] at this)
        simp [pollFrom, hep, h0, ih2]

/-- The loop result is unknown exactly when some poll within the budget
raises before any terminal response was seen. -/
theorem pollFrom_unknown_iff (endpoint : Nat → PollResponse) (n i : Nat) :
    (pollFrom endpoint i n).1 = .unknown ↔
      ∃ k, k < n ∧ endpoint (i + k) = .exn ∧
        ∀ j, j < k → isNonTerminal (endpoint (i + j)) = true := by
  constructor
  · intro h
    induction n generalizing i with
    | zero => simp [pollFrom] at h
    | succ n ih =>
      cases hep : endpoint i with
      | exn =>
        exact ⟨0, Nat.succ_pos n, by simpa using hep, fun j hj => by omega⟩
      | payload fin stop err =>
        cases hterm : (fin || (stop && err)) with
        | true =>
          rw [show pollFrom endpoint i (n + 1)
                = ((if stop && err then .error else .success), 1) by
              simp [pollFrom, hep, hterm]] at h
          cases hse : stop && err <;> rw [hse] at h <;> simp at h
        | false =>
          rw [show pollFrom endpoint i (n + 1)
                = ((pollFrom endpoint (i + 1) n).1,
                   (pollFrom endpoint (i + 1) n).2 + 1) by
              simp [pollFrom, hep, hterm]] at h
          obtain ⟨k, hk, hexn, hpre⟩ := ih (i + 1) h
          refine ⟨k + 1, Nat.succ_lt_succ hk, ?_, ?_⟩
          · rwa [show i + (k + 1) = i + 1 + k by omega]
          · intro j hj
            cases j with
            | zero => simp [hep, isNonTerminal, hterm]
            | succ j =>
              have := hpre j (by omega)
              rwa [show i + 1 + j = i + (j + 1) by omega] at this
  · rintro ⟨k, hk, hexn, hpre⟩
    rw [pollFrom_unknown_count endpoint n i k hk hexn hpre]

/-- The loop result is timeout exactly when every poll within the budget is
non-terminal. -/
theorem pollFrom_timeout_iff (endpoint : Nat → PollResponse) (n i : Nat) :
    (pollFrom endpoint i n).1 = .timeout ↔
      ∀ j, j < n → isNonTerminal (endpoint (i + j)) = true := by
  constructor
  · intro h
    induction n generalizing i with
    | zero => intro j hj; omega
    | succ n ih =>
      cases hep : endpoint i with
      | exn => simp [pollFrom, hep] at h
      | payload fin stop err =>
        cases hterm : (fin || (stop && err)) with
        | true =>
          rw [show pollFrom endpoint i (n + 1)
                = ((if stop && err then .error else .success), 1) by
              simp [pollFrom, hep, hterm]] at h
          cases hse : stop && err <;> rw [hse] at h <;> simp at h
        | false =>
          rw [show pollFrom endpoint i (n + 1)
                = ((pollFrom endpoint (i + 1) n).1,
                   (pollFrom endpoint (i + 1) n).2 + 1) by
              simp [pollFrom, hep, hterm]] at h
          intro j hj
          cases j with
          | zero => simp [hep, isNonTerminal, hterm]
          | succ j =>
            have := ih (i + 1) h j (by omega)
            rwa [show i + 1 + j = i + (j + 1) by omega] at this
  · intro h
    rw [pollFrom_all_nonterminal endpoint n i h]

/- ===================== claim theorems ================================== -/

/-- C8: the status poller returns unknown only when a poll request raises
(the loop stops at that poll, k + 1 of the 60), returns timeout only when
all 60 polls complete without a terminal response, and a workflow-reported
failure (stoppedAt with an error key) reached before any other terminal
response yields the error status; the outcomes are distinct constructors,
hence mutually exclusive. -/
theorem c8_poll_status_partition (endpoint : Nat → PollResponse) :
    ((poll_execution_status endpoint).1 = .unknown ↔
       ∃ k, k < 60 ∧ endpoint k = .exn ∧
         ∀ j, j < k → isNonTerminal (endpoint j) = true)
    ∧ ((poll_execution_status endpoint).1 = .timeout ↔
       ∀ j, j < 60 → isNonTerminal (endpoint j) = true)
    ∧ (∀ k, k < 60 → isErrorTerminal (endpoint k) = true →
         (∀ j, j < k → isNonTerminal (endpoint j) = true) →
         (poll_execution_status endpoint).1 = .error) := by
  refine ⟨?_, ?_, ?_⟩
  · have := pollFrom_unknown_iff endpoint 60 0
    simpa [poll_execution_status] using this
  · have := pollFrom_timeout_iff endpoint 60 0
    simpa [poll_execution_status] using this
  · intro k hk herr hpre
    have := pollFrom_error_of endpoint 60 0 k hk (by simpa using herr)
      (fun j hj => by simpa using hpre j hj)
    simpa [poll_execution_status] using this

/-- C8 witness: a status endpoint that always reports a stop time but no
error key is never terminal, and the poller times out on it. -/
theorem c8_poll_status_partition_witness :
    (poll_execution_status (fun _ => PollResponse.payload false true false)).1
      = .timeout :=
  (c8_poll_status_partition (fun _ => PollResponse.payload false true false)).2.1.mpr
    (by decide)

/-- C1: evaluated at a status endpoint that never reports a terminal state,
poll_execution_status does return timeout after exactly 60 polls, but
execute_via_api then returns no result dictionary at all (its return falls
through), and execute_workflow under the api method ends in the
AttributeError raised inside update_execution_metadata instead of
returning a result with status timeout. -/
theorem c1_poll_exhaustion_drops_timeout_result :
    poll_execution_status (fun _ => PollResponse.payload false false false)
      = (.timeout, 60)
    ∧ execute_via_api (fun _ => PollResponse.payload false false false) = none
    ∧ execute_workflow .api none (.error "unused")
        (.ok (execute_via_api (fun _ => PollResponse.payload false false false)))
        (.error "unused")
      = (.error .attributeErrorNone, [.attemptApi]) := by
  decide

/-- C2 counterexample: with the explicit cli method selected and an API
attempt that succeeds, execute_workflow attempts the API (not the CLI),
returns the API result, and never invokes the CLI. -/
theorem c2_counterexample_cli_method_runs_api :
    (execute_workflow .cli none (.error "no webhook")
        (.ok (some { status := "success" })) (.error "cli never invoked")).1
      = .ok (some { status := "success" })
    ∧ Event.attemptApi ∈ (execute_workflow .cli none (.error "no webhook")
        (.ok (some { status := "success" })) (.error "cli never invoked")).2
    ∧ Event.attemptCli ∉ (execute_workflow .cli none (.error "no webhook")
        (.ok (some { status := "success" })) (.error "cli never invoked")).2 := by
  decide

/-- C2 amended: for explicit method api, only the API is attempted and an
API exception propagates; for explicit method webhook with a webhook URL in
the metadata, only the webhook is attempted and a webhook exception
propagates; but for explicit method cli the API is attempted first, the CLI
runs only as a fallback after an API exception, and then a CLI exception
propagates. -/
theorem c2_explicit_method_dispatch
    (wurl : Option String) (wh : Except String ExecResult)
    (api : Except String (Option ExecResult)) (cli : Except String ExecResult) :
    (Event.attemptWebhook ∉ (execute_workflow .api wurl wh api cli).2
      ∧ Event.attemptCli ∉ (execute_workflow .api wurl wh api cli).2
      ∧ ∀ e, api = .error e →
          execute_workflow .api wurl wh api cli
            = (.error (.apiError e), [.attemptApi]))
    ∧ (∀ u, wurl = some u →
        Event.attemptApi ∉ (execute_workflow .webhook wurl wh api cli).2
        ∧ Event.attemptCli ∉ (execute_workflow .webhook wurl wh api cli).2
        ∧ ∀ e, wh = .error e →
            execute_workflow .webhook wurl wh api cli
              = (.error (.webhookError e), [.attemptWebhook]))
    ∧ (Event.attemptWebhook ∉ (execute_workflow .cli wurl wh api cli).2
        ∧ (∀ e, api = .error e →
            Event.attemptCli ∈ (execute_workflow .cli wurl wh api cli).2)
        ∧ ∀ e ce, api = .error e → cli = .error ce →
            execute_workflow .cli wurl wh api cli
              = (.error (.cliError ce), [.attemptApi, .attemptCli])) := by
  refine ⟨⟨?_, ?_, ?_⟩, ?_, ?_, ?_, ?_⟩
  · rcases api with e | (_ | r) <;>
      simp [execute_workflow, api_cli_phase, record_result]
  · rcases api with e | (_ | r) <;>
      simp [execute_workflow, api_cli_phase, record_result]
  · intro e he
    subst he
    simp [execute_workflow, api_cli_phase, record_result]
  · intro u hu
    subst hu
    rcases wh with e | r <;>
      simp [execute_workflow, api_cli_phase, record_result]
  · rcases api with e | (_ | r) <;>
      rcases cli with ce | cr <;>
      simp [execute_workflow, api_cli_phase, record_result]
  · intro e he
    subst he
    rcases cli with ce | cr <;>
      simp [execute_workflow, api_cli_phase, record_result]
  · intro e ce he hce
    subst he
    subst hce
    simp [execute_workflow, api_cli_phase, record_result]

/-- C2 witness: with the explicit api method and an API attempt raising a
connection error, execute_workflow propagates exactly that failure. -/
theorem c2_explicit_method_dispatch_witness :
    execute_workflow .api none (.ok { status := "success" })
        (.error "ConnectionError") (.ok { status := "success" })
      = (.error (.apiError "ConnectionError"), [.attemptApi]) :=
  (c2_explicit_method_dispatch none (.ok { status := "success" })
      (.error "ConnectionError") (.ok { status := "success" })).1.2.2
    "ConnectionError" rfl

/-- C4 counterexample: with the explicit api method and an API attempt that
raises, execute_workflow re-raises before reaching the recording step, so
neither the context file write nor the metadata update happens for that
failed execution attempt. -/
theorem c4_counterexample_raising_attempt_unrecorded :
    execute_workflow .api none (.ok { status := "x" })
        (.error "ConnectionError: refused") (.ok { status := "y" })
      = (.error (.apiError "ConnectionError: refused"), [.attemptApi])
    ∧ Event.saveExecutionData ∉ [Event.attemptApi]
    ∧ Event.updateMetadata ∉ [Event.attemptApi] := by
  decide

/-- C4 amended: every execution attempt that produces a normalized result
record (including one whose status is error) is persisted via
save_execution_data and recorded via update_execution_metadata; an attempt
that terminates by raising an exception propagates it and performs neither
recording step. -/
theorem c4_recording (method : Method) (wurl : Option String)
    (wh : Except String ExecResult) (api : Except String (Option ExecResult))
    (cli : Except String ExecResult) :
    (∀ r evs, execute_workflow method wurl wh api cli = (.ok (some r), evs) →
       Event.saveExecutionData ∈ evs ∧ Event.updateMetadata ∈ evs)
    ∧ (∀ err evs, execute_workflow method wurl wh api cli = (.error err, evs) →
       Event.saveExecutionData ∉ evs ∧ Event.updateMetadata ∉ evs) := by
  constructor
  · intro r evs h
    rcases method with _ | _ | _ | _ <;> rcases wurl with _ | u <;>
      rcases wh with we | wr <;> rcases api with ae | (_ | ar) <;>
      rcases cli with ce | cr <;>
      simp [execute_workflow, api_cli_phase, record_result] at h <;>
      (obtain ⟨-, rfl⟩ := h; decide)
  · intro err evs h
    rcases method with _ | _ | _ | _ <;> rcases wurl with _ | u <;>
      rcases wh with we | wr <;> rcases api with ae | (_ | ar) <;>
      rcases cli with ce | cr <;>
      simp [execute_workflow, api_cli_phase, record_result] at h <;>
      (obtain ⟨-, rfl⟩ := h; decide)

/-- C4 witness: an API attempt whose result has status error is still
saved and recorded in the metadata. -/
theorem c4_recording_witness :
    Event.saveExecutionData ∈
      (execute_workflow .auto none (.ok { status := "x" })
        (.ok (some { status := "error" })) (.ok { status := "y" })).2
    ∧ Event.updateMetadata ∈
      (execute_workflow .auto none (.ok { status := "x" })
        (.ok (some { status := "error" })) (.ok { status := "y" })).2 :=
  (c4_recording .auto none (.ok { status := "x" })
      (.ok (some { status := "error" })) (.ok { status := "y" })).1
    { status := "error" } [.attemptApi, .saveExecutionData, .updateMetadata] rfl

/-- C3: when the fetched active flag already equals the desired state,
set_workflow_active_state returns the no-op record with changed false
after issuing only the one GET (no mutating request); consequently, against
a well-behaved engine, activating an inactive workflow twice issues exactly
one mutating request over both calls and the second call returns changed
false. -/
theorem c3_set_active_idempotent (workflow_id : String) (desired : Bool)
    (fetch1 fetch2 : WorkflowData) (w : WorkflowData) :
    (fetch1.active = desired →
       set_workflow_active_state workflow_id desired fetch1 fetch2
         = (.ok { id := workflow_id, name := fetch1.name,
                  active := fetch1.active, changed := false },
            [.getWorkflow workflow_id])
       ∧ (set_workflow_active_state workflow_id desired fetch1 fetch2).2.countP
            (fun r => r.isMutating) = 0)
    ∧ (w.active = false →
       ((run_set_active workflow_id true w).1.2
          ++ (run_set_active workflow_id true
                (run_set_active workflow_id true w).2).1.2).countP
           (fun r => r.isMutating) = 1
       ∧ (run_set_active workflow_id true
            (run_set_active workflow_id true w).2).1.1
           = .ok { id := workflow_id, name := w.name,
                   active := true, changed := false }) := by
  constructor
  · intro h
    constructor
    · simp [set_workflow_active_state, h]
    · simp [set_workflow_active_state, h, N8nRequest.isMutating]
  · intro h
    constructor
    · simp [run_set_active, set_workflow_active_state, engineStep, h,
        N8nRequest.isMutating]
    · simp [run_set_active, set_workflow_active_state, engineStep, h]

/-- C3 witness: workflow wf-42 starts inactive; activating it twice in a
row issues one mutating request in total and the second call reports
changed false. -/
theorem c3_set_active_idempotent_witness :
    ((run_set_active "wf-42" true ⟨"My Flow", false⟩).1.2
       ++ (run_set_active "wf-42" true
             (run_set_active "wf-42" true ⟨"My Flow", false⟩).2).1.2).countP
        (fun r => r.isMutating) = 1
    ∧ (run_set_active "wf-42" true
         (run_set_active "wf-42" true ⟨"My Flow", false⟩).2).1.1
        = .ok { id := "wf-42", name := "My Flow",
                active := true, changed := false } :=
  (c3_set_active_idempotent "wf-42" true ⟨"My Flow", false⟩ ⟨"My Flow", false⟩
    ⟨"My Flow", false⟩).2 rfl

/-- C7: when the fetched state differs from the desired one, the call
issues exactly GET, action POST, GET; if the verification fetch shows the
desired state the call returns the changed record, and otherwise it fails
with the error carrying the observed state. -/
theorem c7_activation_change_verified (workflow_id : String) (desired : Bool)
    (fetch1 fetch2 : WorkflowData) (h : fetch1.active ≠ desired) :
    (set_workflow_active_state workflow_id desired fetch1 fetch2).2
      = [.getWorkflow workflow_id,
         if desired then .postActivate workflow_id
         else .postDeactivate workflow_id,
         .getWorkflow workflow_id]
    ∧ (fetch2.active = desired →
        (set_workflow_active_state workflow_id desired fetch1 fetch2).1
          = .ok { id := workflow_id, name := fetch1.name,
                  active := fetch2.active, changed := true })
    ∧ (fetch2.active ≠ desired →
        (set_workflow_active_state workflow_id desired fetch1 fetch2).1
          = .error (.mismatch fetch2.active)) := by
  have hb : (fetch1.active == desired) = false := by
    cases hfa : fetch1.active <;> cases hd : desired <;> simp_all
  refine ⟨?_, ?_, ?_⟩
  · simp only [set_workflow_active_state, hb, Bool.false_eq_true, if_false]
    split <;> rfl
  · intro h2
    have hb2 : (fetch2.active == desired) = true := by simp [h2]
    simp [set_workflow_active_state, hb, hb2]
  · intro h2
    have hb2 : (fetch2.active == desired) = false := by
      cases hfa : fetch2.active <;> cases hd : desired <;> simp_all
    simp [set_workflow_active_state, hb, hb2]

/-- C7 witness: workflow wf-42, inactive, activated with a verification
fetch showing the active flag set: the requests are GET, POST activate,
GET, and the result is the changed record. -/
theorem c7_activation_change_verified_witness :
    (set_workflow_active_state "wf-42" true ⟨"My Flow", false⟩
        ⟨"My Flow", true⟩).2
      = [.getWorkflow "wf-42", .postActivate "wf-42", .getWorkflow "wf-42"]
    ∧ (set_workflow_active_state "wf-42" true ⟨"My Flow", false⟩
        ⟨"My Flow", true⟩).1
      = .ok { id := "wf-42", name := "My Flow", active := true,
              changed := true } := by
  have h := c7_activation_change_verified "wf-42" true ⟨"My Flow", false⟩
    ⟨"My Flow", true⟩ (by decide)
  exact ⟨h.1, h.2.1 rfl⟩

/-- C6: batch_activate returns one record per identifier in input order
(an activation record or a failure record, as each call turned out), and
the failed count of the summary equals the number of identifiers whose
activation raised; in particular one failure never removes the records of
the remaining identifiers. -/
theorem c6_batch_activate_per_id
    (act : String → Except String ActivationResult) (ids : List String) :
    (batch_activate act ids).length = ids.length
    ∧ batch_activate act ids = ids.map (fun workflow_id =>
        match act workflow_id with
        | .ok r => BatchRecord.activation r
        | .error e => BatchRecord.failure workflow_id e)
    ∧ batch_failed_count (batch_activate act ids)
        = ids.countP (fun workflow_id =>
            match act workflow_id with
            | .ok _ => false
            | .error _ => true) := by
  induction ids with
  | nil => exact ⟨rfl, rfl, rfl⟩
  | cons workflow_id rest ih =>
    obtain ⟨ih1, ih2, ih3⟩ := ih
    refine ⟨?_, ?_, ?_⟩
    · simp [batch_activate, ih1]
    · simp only [batch_activate, List.map_cons]
      rw [ih2]
    · cases hact : act workflow_id with
      | ok r =>
        simp only [batch_activate, batch_failed_count, hact,
          List.countP_cons] at *
        simp [hact, ih3]
      | error e =>
        simp only [batch_activate, batch_failed_count, hact,
          List.countP_cons] at *
        simp [hact, ih3]

/- ===================== extraction lemmas =============================== -/

/-- A webhook node with a parameters dictionary contributes its entry to
any successful extraction of a node list containing it. -/
theorem extract_mem_of_mem (base : String) (l : List Node) (node : Node)
    (params : NodeParameters) (lst : List WebhookInfo)
    (hmem : node ∈ l) (hweb : isWebhookNode node = true)
    (hparams : node.parameters = some params)
    (hok : extract_webhook_urls_nodes base l = .ok lst) :
    mkWebhookInfo base node params ∈ lst := by
  induction l generalizing lst with
  | nil => cases hmem
  | cons head rest ih =>
    rcases List.mem_cons.mp hmem with rfl | hmem2
    · simp only [extract_webhook_urls_nodes, hweb, if_true, hparams] at hok
      cases hrest : extract_webhook_urls_nodes base rest with
      | ok tail =>
        rw [hrest] at hok
        simp only [Except.ok.injEq] at hok
        subst hok
        exact List.mem_cons_self _ _
      | error e => rw [hrest] at hok; cases hok
    · by_cases hw : isWebhookNode head = true
      · cases hp : head.parameters with
        | none =>
          simp only [extract_webhook_urls_nodes, hw, if_true, hp] at hok
          cases hok
        | some q =>
          simp only [extract_webhook_urls_nodes, hw, if_true, hp] at hok
          cases hrest : extract_webhook_urls_nodes base rest with
          | ok tail =>
            rw [hrest] at hok
            simp only [Except.ok.injEq] at hok
            subst hok
            exact List.mem_cons_of_mem _ (ih tail hmem2 hrest)
          | error e => rw [hrest] at hok; cases hok
      · have hwf : isWebhookNode head = false := by simpa using hw
        simp only [extract_webhook_urls_nodes, hwf, Bool.false_eq_true,
          if_false] at hok
        exact ih lst hmem2 hok

/-- A webhook node whose parameters key is absent makes the extraction of
any node list containing it raise KeyError. -/
theorem extract_error_of_missing_params (base : String) (l : List Node)
    (node : Node) (hmem : node ∈ l) (hweb : isWebhookNode node = true)
    (hnone : node.parameters = none) :
    extract_webhook_urls_nodes base l = .error (.keyError "parameters") := by
  induction l with
  | nil => cases hmem
  | cons head rest ih =>
    rcases List.mem_cons.mp hmem with rfl | hmem2
    · simp [extract_webhook_urls_nodes, hweb, hnone]
    · by_cases hw : isWebhookNode head = true
      · cases hp : head.parameters with
        | none => simp [extract_webhook_urls_nodes, hw, hp]
        | some q => simp [extract_webhook_urls_nodes, hw, hp, ih hmem2]
      · have hwf : isWebhookNode head = false := by simpa using hw
        simp [extract_webhook_urls_nodes, hwf, ih hmem2]

/-- When every webhook node of the list carries a parameters dictionary,
the extraction succeeds. -/
theorem extract_ok_of_params (base : String) (l : List Node)
    (hall : ∀ n ∈ l, isWebhookNode n = true → n.parameters ≠ none) :
    ∃ lst, extract_webhook_urls_nodes base l = .ok lst := by
  induction l with
  | nil => exact ⟨[], rfl⟩
  | cons head rest ih =>
    obtain ⟨tail, htail⟩ :=
      ih (fun n hn hw => hall n (List.mem_cons_of_mem _ hn) hw)
    by_cases hw : isWebhookNode head = true
    · cases hp : head.parameters with
      | none => exact absurd hp (hall head (List.mem_cons_self _ _) hw)
      | some q =>
        exact ⟨mkWebhookInfo base head q :: tail,
          by simp [extract_webhook_urls_nodes, hw, hp, htail]⟩
    · have hwf : isWebhookNode head = false := by simpa using hw
      exact ⟨tail, by simp [extract_webhook_urls_nodes, hwf, htail]⟩

/-- The inner fields of an extracted entry always come from the parameters
dictionary with the defaults of webhook_utils.py lines 47-50. -/
theorem mkWebhookInfo_fields (base : String) (node : Node)
    (params : NodeParameters) :
    (mkWebhookInfo base node params).path = params.path.getD ""
    ∧ (mkWebhookInfo base node params).method = params.method.getD "GET"
    ∧ (mkWebhookInfo base node params).response_mode
        = params.responseMode.getD "onReceived" := by
  simp only [mkWebhookInfo]
  split
  · simp
  · split
    · simp
    · simp

/-- C5: a webhook node holding a nonempty path yields an entry whose
production URL is base, the webhook segment, then the path, whose test URL
is the same with the webhook-test segment, and whose two URLs therefore
differ only by that one segment substitution; the path is used even when a
webhook identifier is also present. -/
theorem c5_webhook_url_pair (base : String) (wf : Workflow) (node : Node)
    (params : NodeParameters) (p : String) (lst : List WebhookInfo)
    (hmem : node ∈ wf.nodes) (hweb : isWebhookNode node = true)
    (hparams : node.parameters = some params)
    (hpath : params.path = some p) (hne : p ≠ "")
    (hok : extract_webhook_urls base wf = .ok lst) :
    ∃ e ∈ lst,
      e.production_url = some (base ++ "/webhook/" ++ p)
      ∧ e.test_url = some (base ++ "/webhook-test/" ++ p)
      ∧ ∃ pre post, e.production_url = some (pre ++ "/webhook/" ++ post)
          ∧ e.test_url = some (pre ++ "/webhook-test/" ++ post) := by
  refine ⟨mkWebhookInfo base node params,
    extract_mem_of_mem base wf.nodes node params lst hmem hweb hparams hok,
    ?_, ?_, base, p, ?_, ?_⟩ <;>
    simp [mkWebhookInfo, hpath, hne]

/-- C5 witness: a single webhook node with path hook1 and a webhook
identifier wid-1 present as well. -/
theorem c5_webhook_url_pair_witness :
    ∃ e ∈ ([{ node_name := "Hook", path := "hook1", method := "POST",
              webhook_id := "wid-1", response_mode := "onReceived",
              production_url := some ("https://n8n.example" ++ "/webhook/"
                ++ "hook1"),
              test_url := some ("https://n8n.example" ++ "/webhook-test/"
                ++ "hook1") }] : List WebhookInfo),
      e.production_url = some ("https://n8n.example" ++ "/webhook/" ++ "hook1")
      ∧ e.test_url = some ("https://n8n.example" ++ "/webhook-test/" ++ "hook1")
      ∧ ∃ pre post, e.production_url = some (pre ++ "/webhook/" ++ post)
          ∧ e.test_url = some (pre ++ "/webhook-test/" ++ post) :=
  c5_webhook_url_pair "https://n8n.example"
    ⟨[{ name := some "Hook", type := some "webhook",
        webhookId := some "wid-1",
        parameters := some { path := some "hook1", method := some "POST",
                             responseMode := none } }]⟩
    { name := some "Hook", type := some "webhook", webhookId := some "wid-1",
      parameters := some { path := some "hook1", method := some "POST",
                           responseMode := none } }
    { path := some "hook1", method := some "POST", responseMode := none }
    "hook1" _ (by decide) (by decide) rfl rfl (by decide) (by decide)

/-- C9: after the field-cleaning step removes the id key, the
create-or-update branch of import_workflow always takes the create path: a
POST to the workflow collection, never a PUT. -/
theorem c9_import_always_posts (w : WorkflowDocument) :
    import_workflow w = .post :=
  rfl

/-- C10: a webhook node with no parameters dictionary at all makes
extract_webhook_urls raise KeyError, whatever the rest of the workflow is;
when every webhook node has a parameters dictionary the extraction
succeeds, and inner fields missing from it are filled with the defaults
(empty path, GET, onReceived) without raising. -/
theorem c10_extract_keyerror_vs_defaults (base : String) (wf : Workflow) :
    (∀ node, node ∈ wf.nodes → isWebhookNode node = true →
       node.parameters = none →
       extract_webhook_urls base wf = .error (.keyError "parameters"))
    ∧ ((∀ node ∈ wf.nodes, isWebhookNode node = true →
          node.parameters ≠ none) →
       ∃ lst, extract_webhook_urls base wf = .ok lst
         ∧ ∀ node, node ∈ wf.nodes → isWebhookNode node = true →
             node.parameters
               = some { path := none, method := none, responseMode := none } →
             ∃ e ∈ lst, e.path = "" ∧ e.method = "GET"
               ∧ e.response_mode = "onReceived") := by
  constructor
  · intro node hmem hweb hnone
    exact extract_error_of_missing_params base wf.nodes node hmem hweb hnone
  · intro hall
    obtain ⟨lst, hlst⟩ := extract_ok_of_params base wf.nodes hall
    refine ⟨lst, hlst, ?_⟩
    intro node hmem hweb hparams
    refine ⟨mkWebhookInfo base node
        { path := none, method := none, responseMode := none },
      extract_mem_of_mem base wf.nodes node _ lst hmem hweb hparams hlst, ?_⟩
    simpa using mkWebhookInfo_fields base node
      { path := none, method := none, responseMode := none }

/-- C10 witness: a webhook node with the parameters key absent raises
KeyError on its own. -/
theorem c10_extract_keyerror_vs_defaults_witness :
    extract_webhook_urls "https://n8n.example"
        ⟨[{ name := some "W", type := some "Webhook",
            webhookId := some "wid", parameters := none }]⟩
      = .error (.keyError "parameters") :=
  (c10_extract_keyerror_vs_defaults "https://n8n.example"
      ⟨[{ name := some "W", type := some "Webhook",
          webhookId := some "wid", parameters := none }]⟩).1
    { name := some "W", type := some "Webhook", webhookId := some "wid",
      parameters := none }
    (by decide) (by decide) rfl

end CCAutoN8n
